import Mathlib

/-!
Shallow embedding of the request-governance pipeline of `highperf-api`
(`internal/httpserver/middleware.go`, `internal/httpserver/server.go`,
`internal/encoding/jsonx/pool.go`).

Conventions of the embedding:
* Go `time.Time` and `time.Duration` are modelled as integer nanosecond
  counts (`Int`).
* The rate limiter's refill count
  `int(float64(rl.refill) * elapsed.Seconds() / rl.per.Seconds())`
  is modelled with exact arithmetic: for nonnegative operands it equals
  `rl.refill * elapsedNs / perNs` rounded toward zero, i.e. integer
  division.
* `math.Max(0, float64(failures-2))` is exact on the integers involved and
  is modelled as `max 0 (failures - 2)`.
* `rand.Intn(2)` is modelled by an arbitrary seed reduced mod 2, covering
  exactly the two possible outcomes `0` and `1`.
* Handlers are modelled as functions on an exchange record carrying the
  ordered list of pipeline stages entered so far and an optional terminal
  response, which suffices for the stage-ordering and short-circuiting
  claims.
-/

namespace HighperfApi

/-- Go helper `min(a, b int) int` from middleware.go: `if a < b { return a }; return b`. -/
def goMin (a b : Int) : Int := if a < b then a else b

/-! ### Rate limiter (middleware.go, `RateLimiter`) -/

/-- State of `RateLimiter`: tokens, last refill instant, capacity, refill
rate and refill period (`per`, in nanoseconds). -/
structure RateLimiter where
  tokens : Int
  last : Int
  cap : Int
  refill : Int
  per : Int
  deriving DecidableEq

/-- `NewRateLimiter(capacity, refillRate, per)`: tokens start at capacity and
`last` is the construction instant. -/
def NewRateLimiter (capacity refillRate per now : Int) : RateLimiter :=
  { tokens := capacity, last := now, cap := capacity, refill := refillRate, per := per }

/-- The refill count `n := int(float64(rl.refill) * elapsed.Seconds() / rl.per.Seconds())`,
with the float computation modelled exactly (see the file header). -/
def tokensToAdd (rl : RateLimiter) (now : Int) : Int :=
  rl.refill * (now - rl.last) / rl.per

/-- The refill phase of `(*RateLimiter).Middleware`: if `elapsed > 0` and
`n > 0` then `tokens = min(cap, tokens+n)` and `last = now`, else no change. -/
def RateLimiter.refillStep (rl : RateLimiter) (now : Int) : RateLimiter :=
  if 0 < now - rl.last then
    if 0 < tokensToAdd rl now then
      { rl with tokens := goMin rl.cap (rl.tokens + tokensToAdd rl now), last := now }
    else rl
  else rl

/-- Outcome of one admission check: the request is forwarded downstream, or
rejected with HTTP 429 without invoking downstream. -/
inductive RLOutcome
  | forwarded
  | rejected429
  deriving DecidableEq

/-- One full pass of `(*RateLimiter).Middleware` over the shared bucket:
refill, then either reject (`tokens <= 0`, status 429, no token consumed,
downstream not invoked) or consume one token and forward. -/
def RateLimiter.step (rl : RateLimiter) (now : Int) : RateLimiter × RLOutcome :=
  if (rl.refillStep now).tokens ≤ 0 then
    (rl.refillStep now, RLOutcome.rejected429)
  else
    ({ rl.refillStep now with tokens := (rl.refillStep now).tokens - 1 }, RLOutcome.forwarded)

/-- Run the rate limiter over a sequence of request arrival times. -/
def runRL (rl : RateLimiter) (times : List Int) : RateLimiter :=
  times.foldl (fun s t => (s.step t).1) rl

/-- Iterate the limiter `k` times at one fixed arrival instant. -/
def RateLimiter.iter (rl : RateLimiter) (t : Int) : Nat → RateLimiter
  | 0 => rl
  | k + 1 => ((rl.iter t k).step t).1

/-! ### Circuit breaker (middleware.go, `CircuitBreaker`) -/

/-- State of `CircuitBreaker`: failure score, open-until instant
(zero-valued when never opened), threshold and cooldown. -/
structure CircuitBreaker where
  failures : Int
  openUntil : Int
  failureThreshold : Int
  openFor : Int
  deriving DecidableEq

/-- `NewCircuitBreaker(failureThreshold, openFor)`: score 0, `openUntil`
the zero time. -/
def NewCircuitBreaker (failureThreshold openFor : Int) : CircuitBreaker :=
  { failures := 0, openUntil := 0, failureThreshold := failureThreshold, openFor := openFor }

/-- The `respRecorder` code: initialised to `http.StatusOK` (200) and set by
each `WriteHeader` call, so the recorded value is the last write, or 200 if
the downstream handler never called `WriteHeader`. -/
def recordedCode (writes : List Int) : Int :=
  writes.getLast?.getD 200

/-- Outcome recording of `(*CircuitBreaker).Middleware`: on `code >= 500`
increment the score and, when it reaches the threshold, open for `openFor`
and reset the score to 0; otherwise decay the score by 2, floored at 0. -/
def CircuitBreaker.record (cb : CircuitBreaker) (code now : Int) : CircuitBreaker :=
  if 500 ≤ code then
    if cb.failureThreshold ≤ cb.failures + 1 then
      { cb with openUntil := now + cb.openFor, failures := 0 }
    else
      { cb with failures := cb.failures + 1 }
  else
    { cb with failures := max 0 (cb.failures - 2) }

/-- Run the breaker's outcome recording over a list of (status, time) events. -/
def runCB (cb : CircuitBreaker) (events : List (Int × Int)) : CircuitBreaker :=
  events.foldl (fun s e => s.record e.1 e.2) cb

/-- `rand.Intn(2)`: one of the two values `0` or `1`. -/
def randIntn2 (seed : Nat) : Nat := seed % 2

/-- `time.Duration(r) * time.Millisecond` in nanoseconds. -/
def jitterNs (r : Nat) : Nat := r * 1000000

/-- Result of one pass through `(*CircuitBreaker).Middleware`: the new
breaker state, the status the client observes, whether downstream ran, and
the jitter slept (in nanoseconds). -/
structure BreakerStep where
  cb : CircuitBreaker
  status : Int
  downstreamRan : Bool
  jitter : Nat
  deriving DecidableEq

/-- One pass of `(*CircuitBreaker).Middleware`: if `now` is before
`openUntil`, reply 503 immediately with no downstream call and no state
change; otherwise sleep the jitter, run downstream under the recorder
(`writes` is the sequence of `WriteHeader` arguments), and record the
outcome at `recTime`. -/
def CircuitBreaker.middlewareStep (cb : CircuitBreaker) (now : Int) (seed : Nat)
    (writes : List Int) (recTime : Int) : BreakerStep :=
  if now < cb.openUntil then
    { cb := cb, status := 503, downstreamRan := false, jitter := 0 }
  else
    { cb := cb.record (recordedCode writes) recTime
      status := recordedCode writes
      downstreamRan := true
      jitter := jitterNs (randIntn2 seed) }

/-! ### Buffer pool (jsonx/pool.go) -/

/-- A `bytes.Buffer` abstracted to its capacity and length. -/
structure Buffer where
  cap : Nat
  len : Nat
  deriving DecidableEq

/-- `(*bytes.Buffer).Reset()`: length becomes 0, capacity is kept. -/
def Buffer.Reset (b : Buffer) : Buffer := { b with len := 0 }

/-- The free list of `bufPool`. -/
structure Pool where
  free : List Buffer
  deriving DecidableEq

/-- The `1<<20` capacity ceiling of `PutBuffer`. -/
def poolCeiling : Nat := 1 <<< 20

/-- `PutBuffer(b)`: drop the buffer if `b.Cap() > 1<<20`, otherwise store it
in the pool as-is (no reset on release). -/
def PutBuffer (p : Pool) (b : Buffer) : Pool :=
  if poolCeiling < b.cap then p else { free := b :: p.free }

/-- `GetBuffer()`: take a pooled buffer (or a fresh empty one when the pool
is empty, `sync.Pool.New`), `Reset()` it, and hand it out. -/
def GetBuffer (p : Pool) : Pool × Buffer :=
  match p.free with
  | [] => ({ free := [] }, Buffer.Reset { cap := 0, len := 0 })
  | b :: rest => ({ free := rest }, b.Reset)

/-! ### Pipeline composition (server.go, `NewRouter`) -/

/-- The stages of the composed pipeline. -/
inductive Stage
  | serverHeader
  | recoverGuard
  | timeouts
  | rateLimit
  | breaker
  | metrics
  | tracing
  | downstream
  deriving DecidableEq

/-- One request exchange, abstracted to the ordered list of stages entered
so far and the terminal response, if a stage has produced one. -/
structure Exchange where
  trace : List Stage
  response : Option Int
  deriving DecidableEq

/-- A handler transforms an exchange. -/
def Handler : Type := Exchange → Exchange

/-- Record that a stage has been entered. -/
def enter (s : Stage) (c : Exchange) : Exchange := { c with trace := c.trace ++ [s] }

/-- `withServerHeader`: stamp the header, forward. -/
def withServerHeader (next : Handler) : Handler := fun c => next (enter Stage.serverHeader c)

/-- `withRecover`: install the panic boundary, forward. -/
def withRecover (next : Handler) : Handler := fun c => next (enter Stage.recoverGuard c)

/-- `withTimeouts`: bound the context, forward. -/
def withTimeouts (next : Handler) : Handler := fun c => next (enter Stage.timeouts c)

/-- `(*RateLimiter).Middleware`, abstracted to its control flow: forward
when a token is available, otherwise short-circuit with 429. -/
def rateLimiterMiddleware (tokenAvailable : Bool) (next : Handler) : Handler := fun c =>
  if tokenAvailable then next (enter Stage.rateLimit c)
  else { enter Stage.rateLimit c with response := some 429 }

/-- `(*CircuitBreaker).Middleware`, abstracted to its control flow:
short-circuit with 503 while open, otherwise forward. -/
def circuitBreakerMiddleware (circuitOpen : Bool) (next : Handler) : Handler := fun c =>
  if circuitOpen then { enter Stage.breaker c with response := some 503 }
  else next (enter Stage.breaker c)

/-- `withMetrics`: placeholder, forward. -/
def withMetrics (next : Handler) : Handler := fun c => next (enter Stage.metrics c)

/-- `withTracing`: placeholder, forward. -/
def withTracing (next : Handler) : Handler := fun c => next (enter Stage.tracing c)

/-- The httprouter downstream handler: produce a 200 response. -/
def baseRouter : Handler := fun c => { enter Stage.downstream c with response := some 200 }

/-- The middleware composition of `NewRouter` (server.go lines 46-54),
mirroring the successive re-wrappings `h = withX(h)` exactly: each later
line wraps the previous handler, so the last-applied wrapper is outermost. -/
def NewRouterHandler (tokenAvailable circuitOpen : Bool) : Handler :=
  withTracing (withMetrics (circuitBreakerMiddleware circuitOpen
    (rateLimiterMiddleware tokenAvailable
      (withTimeouts (withRecover (withServerHeader baseRouter))))))

/-- The stage order the spec claims requests pass through. -/
def specClaimedStageOrder : List Stage :=
  [Stage.serverHeader, Stage.recoverGuard, Stage.timeouts, Stage.rateLimit,
   Stage.breaker, Stage.metrics, Stage.tracing, Stage.downstream]

/-- The stage order the composed handler actually executes. -/
def actualStageOrder : List Stage :=
  [Stage.tracing, Stage.metrics, Stage.breaker, Stage.rateLimit,
   Stage.timeouts, Stage.recoverGuard, Stage.serverHeader, Stage.downstream]

/-! ## Helper lemmas -/

/-- The refill phase never changes the configuration fields. -/
theorem refillStep_params (rl : RateLimiter) (now : Int) :
    (rl.refillStep now).cap = rl.cap ∧ (rl.refillStep now).refill = rl.refill ∧
    (rl.refillStep now).per = rl.per := by
  unfold RateLimiter.refillStep
  repeat' split
  all_goals exact ⟨rfl, rfl, rfl⟩

/-- Well-formedness of a limiter: nonnegative configuration and tokens within
the capacity bounds. -/
def GoodRL (rl : RateLimiter) : Prop :=
  0 ≤ rl.refill ∧ 0 ≤ rl.per ∧ 0 ≤ rl.cap ∧ 0 ≤ rl.tokens ∧ rl.tokens ≤ rl.cap

/-- The refill count is nonnegative whenever the rate is and time moved forward. -/
theorem tokensToAdd_nonneg (rl : RateLimiter) (now : Int)
    (hrefill : 0 ≤ rl.refill) (hper : 0 ≤ rl.per) (hel : 0 ≤ now - rl.last) :
    0 ≤ tokensToAdd rl now :=
  Int.ediv_nonneg (mul_nonneg hrefill hel) hper

/-- The refill phase preserves well-formedness and the capacity field. -/
theorem refillStep_good (rl : RateLimiter) (now : Int) (h : GoodRL rl) :
    GoodRL (rl.refillStep now) ∧ (rl.refillStep now).cap = rl.cap := by
  obtain ⟨h1, h2, h3, h4, h5⟩ := h
  unfold RateLimiter.refillStep
  split
  · split
    · rename_i hel hn
      refine ⟨⟨h1, h2, h3, ?_, ?_⟩, rfl⟩
      · show 0 ≤ goMin rl.cap (rl.tokens + tokensToAdd rl now)
        unfold goMin
        split <;> omega
      · show goMin rl.cap (rl.tokens + tokensToAdd rl now) ≤ rl.cap
        unfold goMin
        split <;> omega
    · exact ⟨⟨h1, h2, h3, h4, h5⟩, rfl⟩
  · exact ⟨⟨h1, h2, h3, h4, h5⟩, rfl⟩

/-- One admission pass preserves well-formedness and the capacity field. -/
theorem step_good (rl : RateLimiter) (now : Int) (h : GoodRL rl) :
    GoodRL ((rl.step now).1) ∧ ((rl.step now).1).cap = rl.cap := by
  obtain ⟨⟨h1, h2, h3, h4, h5⟩, hcap⟩ := refillStep_good rl now h
  unfold RateLimiter.step
  split
  · exact ⟨⟨h1, h2, h3, h4, h5⟩, hcap⟩
  · rename_i ht
    refine ⟨⟨h1, h2, h3, ?_, ?_⟩, ?_⟩
    · show 0 ≤ (rl.refillStep now).tokens - 1
      omega
    · show (rl.refillStep now).tokens - 1 ≤ (rl.refillStep now).cap
      omega
    · show (rl.refillStep now).cap = rl.cap
      exact hcap

/-- Any run of admission passes preserves well-formedness and capacity. -/
theorem runRL_good (rl : RateLimiter) (times : List Int) (h : GoodRL rl) :
    GoodRL (runRL rl times) ∧ (runRL rl times).cap = rl.cap := by
  induction times generalizing rl with
  | nil => exact ⟨h, rfl⟩
  | cons t ts ih =>
    obtain ⟨hg, hcap⟩ := step_good rl t h
    obtain ⟨hg2, hcap2⟩ := ih ((rl.step t).1) hg
    exact ⟨hg2, hcap2.trans hcap⟩

/-- Refilling at the very instant of the last refill changes nothing. -/
theorem refillStep_at_last (rl : RateLimiter) : rl.refillStep rl.last = rl := by
  unfold RateLimiter.refillStep
  rw [if_neg (by omega)]

/-- An admission pass at the instant of the last refill skips the refill. -/
theorem step_at_last (rl : RateLimiter) (now : Int) (h : now = rl.last) :
    rl.step now =
      if rl.tokens ≤ 0 then (rl, RLOutcome.rejected429)
      else ({ rl with tokens := rl.tokens - 1 }, RLOutcome.forwarded) := by
  subst h
  unfold RateLimiter.step
  rw [refillStep_at_last]

/-- A fresh limiter iterated `k ≤ C` times at its construction instant has
consumed exactly `k` tokens. -/
theorem iter_fresh (C refillRate per t0 : Int) (k : Nat) (hk : (k : Int) ≤ C) :
    (NewRateLimiter C refillRate per t0).iter t0 k =
      { tokens := C - (k : Int), last := t0, cap := C, refill := refillRate, per := per } := by
  induction k with
  | zero => simp [RateLimiter.iter, NewRateLimiter]
  | succ n ih =>
    have hca : (n : Int) + 1 ≤ C := by exact_mod_cast hk
    show (((NewRateLimiter C refillRate per t0).iter t0 n).step t0).1 = _
    rw [ih (by omega)]
    rw [step_at_last _ t0 rfl]
    rw [if_neg (show ¬ ((⟨C - (n : Int), t0, C, refillRate, per⟩ : RateLimiter).tokens ≤ 0) from
      by show ¬ (C - (n : Int) ≤ 0); omega)]
    show (⟨C - (n : Int) - 1, t0, C, refillRate, per⟩ : RateLimiter) = _
    simp only [RateLimiter.mk.injEq, and_true, true_and]
    push_cast
    ring

/-- Recording one breaker outcome keeps the failure score nonnegative. -/
theorem record_failures_nonneg (cb : CircuitBreaker) (code now : Int) (hf : 0 ≤ cb.failures) :
    0 ≤ (cb.record code now).failures := by
  unfold CircuitBreaker.record
  split
  · split
    · exact le_refl 0
    · show (0 : Int) ≤ cb.failures + 1
      omega
  · exact le_max_left 0 (cb.failures - 2)

/-- Recording any run of breaker outcomes keeps the score nonnegative. -/
theorem runCB_failures_nonneg (cb : CircuitBreaker) (events : List (Int × Int))
    (hf : 0 ≤ cb.failures) : 0 ≤ (runCB cb events).failures := by
  induction events generalizing cb with
  | nil => exact hf
  | cons e es ih => exact ih (cb.record e.1 e.2) (record_failures_nonneg cb e.1 e.2 hf)

/-! ## Claim theorems -/

/-- Claim C1, counterexample: on a request that every stage forwards, the
composed handler of `NewRouter` enters the stages in the order Tracing,
Metrics, Breaker, RateLimit, Timeouts, Recovery, ServerHeader, downstream,
which is not the order Header-stamp, Recovery, Deadline, Admission,
Failure-Containment, Metrics, Tracing, downstream claimed by the spec. -/
theorem pipeline_order_differs_from_spec :
    (NewRouterHandler true false { trace := [], response := none }).trace = actualStageOrder ∧
    actualStageOrder ≠ specClaimedStageOrder := by
  decide

/-- Claim C1, amended: the composed handler of `NewRouter` processes every
request through the stages in the fixed order Tracing, Metrics,
Failure-Containment, Admission, Deadline, Recovery, Header-stamp, then the
downstream handler — the reverse of the wrapping order, since each later
`h = withX(h)` line wraps the previous handler and so runs first. Each
stage short-circuits with a terminal response (503 while the circuit is
open, before the rate limiter is consulted; 429 when no token is available,
before the deadline stage) or forwards to the next stage. -/
theorem pipeline_actual_order_and_short_circuits :
    (NewRouterHandler true false { trace := [], response := none }).trace = actualStageOrder ∧
    (NewRouterHandler true false { trace := [], response := none }).response = some 200 ∧
    (NewRouterHandler true true { trace := [], response := none }).trace =
      [Stage.tracing, Stage.metrics, Stage.breaker] ∧
    (NewRouterHandler true true { trace := [], response := none }).response = some 503 ∧
    (NewRouterHandler false false { trace := [], response := none }).trace =
      [Stage.tracing, Stage.metrics, Stage.breaker, Stage.rateLimit] ∧
    (NewRouterHandler false false { trace := [], response := none }).response = some 429 := by
  decide

/-- Claim C2, counterexample: `PutBuffer` stores the released buffer in the
pool without resetting it, so a buffer with nonzero length resides in the
pool, contradicting the claim that every pooled buffer has length zero. -/
theorem pool_holds_nonzero_length_buffer :
    (PutBuffer { free := [] } { cap := 16, len := 5 }).free = [{ cap := 16, len := 5 }] ∧
    ¬ (∀ b ∈ (PutBuffer { free := [] } { cap := 16, len := 5 }).free, b.len = 0) := by
  decide

/-- Claim C2, amended: the reset to length zero happens in `GetBuffer`, not
in `PutBuffer`: every buffer handed out by `GetBuffer` has length zero,
while `PutBuffer` stores a buffer within the capacity ceiling unchanged, so
a pooled buffer may retain a nonzero length between release and the next
acquire. -/
theorem pool_get_returns_empty (p : Pool) (b : Buffer) (hcap : b.cap ≤ poolCeiling) :
    ((GetBuffer p).2).len = 0 ∧
    (PutBuffer p b).free = b :: p.free := by
  constructor
  · rcases p with ⟨_ | ⟨c, rest⟩⟩ <;> rfl
  · unfold PutBuffer
    rw [if_neg (by omega)]

/-- Witness for the amended C2 theorem at a concrete pool and buffer. -/
theorem pool_get_returns_empty_witness :
    ((GetBuffer { free := [] }).2).len = 0 ∧
    (PutBuffer { free := [] } { cap := 8, len := 3 }).free = [{ cap := 8, len := 3 }] :=
  pool_get_returns_empty { free := [] } { cap := 8, len := 3 } (by decide)

/-- Claim C3: for every sequence of admission requests at arbitrary arrival
instants, the token bucket built by `NewRateLimiter` satisfies
`0 ≤ tokens ≤ capacity` after every read-modify-write (the sequence is
universally quantified, so the bound holds at every intermediate state). -/
theorem rateLimiter_tokens_in_range (capacity refillRate per t0 : Int) (times : List Int)
    (hcap : 0 ≤ capacity) (hrefill : 0 ≤ refillRate) (hper : 0 ≤ per) :
    0 ≤ (runRL (NewRateLimiter capacity refillRate per t0) times).tokens ∧
    (runRL (NewRateLimiter capacity refillRate per t0) times).tokens ≤ capacity := by
  have h : GoodRL (NewRateLimiter capacity refillRate per t0) :=
    ⟨hrefill, hper, hcap, hcap, le_refl _⟩
  obtain ⟨⟨_, _, _, h4, h5⟩, hcapEq⟩ := runRL_good _ times h
  have hc : (NewRateLimiter capacity refillRate per t0).cap = capacity := rfl
  exact ⟨h4, by omega⟩

/-- Witness for C3 at a concrete limiter and request sequence. -/
theorem rateLimiter_tokens_in_range_witness :
    0 ≤ (runRL (NewRateLimiter 2 1 1 0) [0, 1, 1, 2]).tokens ∧
    (runRL (NewRateLimiter 2 1 1 0) [0, 1, 1, 2]).tokens ≤ 2 :=
  rateLimiter_tokens_in_range 2 1 1 0 [0, 1, 1, 2] (by decide) (by decide) (by decide)

/-- Claim C4: a status of at least 500 increments the failure score; when
the incremented score reaches the threshold the breaker opens until
`now + openFor` and resets the score to 0; the score stays nonnegative
after every update (and over every run of updates), and any update that
changes `openUntil` leaves the score at 0. -/
theorem circuitBreaker_failure_transition (cb : CircuitBreaker) (code now : Int)
    (hf : 0 ≤ cb.failures) :
    (500 ≤ code → cb.failureThreshold ≤ cb.failures + 1 →
      cb.record code now = { cb with openUntil := now + cb.openFor, failures := 0 }) ∧
    (500 ≤ code → cb.failures + 1 < cb.failureThreshold →
      cb.record code now = { cb with failures := cb.failures + 1 }) ∧
    0 ≤ (cb.record code now).failures ∧
    ((cb.record code now).openUntil ≠ cb.openUntil → (cb.record code now).failures = 0) ∧
    (∀ events : List (Int × Int), 0 ≤ (runCB cb events).failures) := by
  refine ⟨?_, ?_, record_failures_nonneg cb code now hf, ?_,
    fun events => runCB_failures_nonneg cb events hf⟩
  · intro h5 hth
    unfold CircuitBreaker.record
    rw [if_pos h5, if_pos hth]
  · intro h5 hth
    unfold CircuitBreaker.record
    rw [if_pos h5, if_neg (by omega)]
  · intro hne
    unfold CircuitBreaker.record at hne ⊢
    by_cases h5 : 500 ≤ code
    · rw [if_pos h5] at hne ⊢
      by_cases hth : cb.failureThreshold ≤ cb.failures + 1
      · rw [if_pos hth]
      · rw [if_neg hth] at hne
        simp at hne
    · rw [if_neg h5] at hne
      simp at hne

/-- Witness for C4 at a breaker one failure short of its threshold. -/
theorem circuitBreaker_failure_transition_witness :
    CircuitBreaker.record ⟨19, 0, 20, 2⟩ 500 5 =
      { failures := 0, openUntil := 5 + 2, failureThreshold := 20, openFor := 2 } ∧
    0 ≤ (CircuitBreaker.record ⟨19, 0, 20, 2⟩ 500 5).failures :=
  ⟨(circuitBreaker_failure_transition ⟨19, 0, 20, 2⟩ 500 5 (by decide)).1 (by decide) (by decide),
   (circuitBreaker_failure_transition ⟨19, 0, 20, 2⟩ 500 5 (by decide)).2.2.1⟩

/-- Claim C5: a request arriving while the circuit is open (`now < openUntil`)
is answered 503 immediately, downstream is not invoked, and the breaker
state — both `openUntil` and the failure score — is unchanged. -/
theorem breaker_open_rejects (cb : CircuitBreaker) (now : Int) (seed : Nat)
    (writes : List Int) (recTime : Int) (h : now < cb.openUntil) :
    cb.middlewareStep now seed writes recTime =
      { cb := cb, status := 503, downstreamRan := false, jitter := 0 } := by
  unfold CircuitBreaker.middlewareStep
  rw [if_pos h]

/-- Witness for C5 at a concretely open breaker. -/
theorem breaker_open_rejects_witness :
    CircuitBreaker.middlewareStep ⟨0, 10, 20, 2000000000⟩ 5 0 [500] 6 =
      { cb := ⟨0, 10, 20, 2000000000⟩, status := 503, downstreamRan := false, jitter := 0 } :=
  breaker_open_rejects ⟨0, 10, 20, 2000000000⟩ 5 0 [500] 6 (by decide)

/-- Claim C6: a freshly constructed limiter with capacity `C` admits exactly
`C` consecutive zero-elapsed requests; the `(C+1)`-th is rejected with 429
while leaving the whole bucket state unchanged (no token consumed, no
downstream invocation). -/
theorem rateLimiter_exact_capacity (C : Nat) (refillRate per t0 : Int) :
    (∀ k : Nat, k < C →
      (((NewRateLimiter C refillRate per t0).iter t0 k).step t0).2 = RLOutcome.forwarded) ∧
    ((((NewRateLimiter C refillRate per t0).iter t0 C).step t0).2 = RLOutcome.rejected429) ∧
    ((((NewRateLimiter C refillRate per t0).iter t0 C).step t0).1 =
      (NewRateLimiter C refillRate per t0).iter t0 C) := by
  refine ⟨?_, ?_, ?_⟩
  · intro k hk
    rw [iter_fresh C refillRate per t0 k (by exact_mod_cast le_of_lt hk)]
    rw [step_at_last _ t0 rfl]
    rw [if_neg (show ¬ ((⟨(C : Int) - (k : Int), t0, C, refillRate, per⟩ : RateLimiter).tokens ≤ 0)
      from by show ¬ ((C : Int) - (k : Int) ≤ 0); omega)]
  · rw [iter_fresh C refillRate per t0 C (le_refl _)]
    rw [step_at_last _ t0 rfl]
    rw [if_pos (show ((⟨(C : Int) - (C : Int), t0, C, refillRate, per⟩ : RateLimiter).tokens ≤ 0)
      from by show ((C : Int) - (C : Int) ≤ 0); omega)]
  · rw [iter_fresh C refillRate per t0 C (le_refl _)]
    rw [step_at_last _ t0 rfl]
    rw [if_pos (show ((⟨(C : Int) - (C : Int), t0, C, refillRate, per⟩ : RateLimiter).tokens ≤ 0)
      from by show ((C : Int) - (C : Int) ≤ 0); omega)]

/-- Witness for C6 at capacity 3. -/
theorem rateLimiter_exact_capacity_witness :
    (((NewRateLimiter 3 1000 1000000000 0).iter 0 1).step 0).2 = RLOutcome.forwarded ∧
    (((NewRateLimiter 3 1000 1000000000 0).iter 0 3).step 0).2 = RLOutcome.rejected429 :=
  ⟨(rateLimiter_exact_capacity 3 1000 1000000000 0).1 1 (by decide),
   (rateLimiter_exact_capacity 3 1000 1000000000 0).2.1⟩

/-- Claim C7: lazy refill — with `tokensToAdd` the truncated
`refill * elapsed / per`, a positive count sets
`tokens = min(cap, tokens + tokensToAdd)` and advances `last` to `now`,
while a zero count leaves both `tokens` and `last` unchanged. -/
theorem rateLimiter_lazy_refill (rl : RateLimiter) (now : Int)
    (hlast : rl.last ≤ now) :
    (0 < tokensToAdd rl now →
      rl.refillStep now =
        { rl with tokens := goMin rl.cap (rl.tokens + tokensToAdd rl now), last := now }) ∧
    (tokensToAdd rl now = 0 → rl.refillStep now = rl) := by
  constructor
  · intro hn
    have hel : 0 < now - rl.last := by
      rcases lt_or_eq_of_le (sub_nonneg.mpr hlast) with h | h
      · exact h
      · exfalso
        unfold tokensToAdd at hn
        rw [← h] at hn
        simp at hn
    unfold RateLimiter.refillStep
    rw [if_pos hel, if_pos hn]
  · intro h0
    unfold RateLimiter.refillStep
    split
    · rw [if_neg (by omega)]
    · rfl

/-- Witness for C7 on a bucket three seconds past its last refill. -/
theorem rateLimiter_lazy_refill_witness :
    RateLimiter.refillStep ⟨5, 0, 10, 2, 1⟩ 3 =
      { tokens := goMin 10 (5 + tokensToAdd ⟨5, 0, 10, 2, 1⟩ 3), last := 3,
        cap := 10, refill := 2, per := 1 } :=
  (rateLimiter_lazy_refill ⟨5, 0, 10, 2, 1⟩ 3 (by decide)).1 (by decide)

/-- Claim C8: a success outcome (status below 500) observed at score `k`
decays the score to `max 0 (k - 2)` and never touches `openUntil`. -/
theorem breaker_success_decay (cb : CircuitBreaker) (code now : Int) (h : code < 500) :
    (cb.record code now).failures = max 0 (cb.failures - 2) ∧
    (cb.record code now).openUntil = cb.openUntil := by
  unfold CircuitBreaker.record
  rw [if_neg (by omega)]
  exact ⟨rfl, rfl⟩

/-- Witness for C8 at score 5 and status 200. -/
theorem breaker_success_decay_witness :
    (CircuitBreaker.record ⟨5, 0, 20, 2⟩ 200 7).failures = max 0 (5 - 2) ∧
    (CircuitBreaker.record ⟨5, 0, 20, 2⟩ 200 7).openUntil = 0 :=
  breaker_success_decay ⟨5, 0, 20, 2⟩ 200 7 (by decide)

/-- Claim C9, counterexample: on an admitted call with random outcome 1, the
inserted jitter is exactly 1000000 ns — one full millisecond — so the delay
is not strictly sub-millisecond for every random outcome. -/
theorem breaker_jitter_not_strictly_submillisecond :
    ((NewCircuitBreaker 20 2000000000).middlewareStep 0 1 [] 0).jitter = 1000000 ∧
    ¬ ((NewCircuitBreaker 20 2000000000).middlewareStep 0 1 [] 0).jitter < 1000000 := by
  decide

/-- Claim C9, amended: on every admitted call a bounded random jitter of
`rand.Intn(2)` milliseconds is inserted before dispatch, so the delay is 0
or exactly one millisecond — at most (not strictly less than) 1000000 ns. -/
theorem breaker_jitter_at_most_one_millisecond (cb : CircuitBreaker) (now : Int) (seed : Nat)
    (writes : List Int) (recTime : Int) (h : ¬ now < cb.openUntil) :
    (cb.middlewareStep now seed writes recTime).jitter = jitterNs (randIntn2 seed) ∧
    (cb.middlewareStep now seed writes recTime).jitter ≤ 1000000 := by
  unfold CircuitBreaker.middlewareStep
  rw [if_neg h]
  refine ⟨rfl, ?_⟩
  show jitterNs (randIntn2 seed) ≤ 1000000
  unfold jitterNs randIntn2
  omega

/-- Witness for the amended C9 theorem on a closed breaker. -/
theorem breaker_jitter_at_most_one_millisecond_witness :
    ((NewCircuitBreaker 20 2000000000).middlewareStep 0 3 [] 0).jitter = jitterNs (randIntn2 3) ∧
    ((NewCircuitBreaker 20 2000000000).middlewareStep 0 3 [] 0).jitter ≤ 1000000 :=
  breaker_jitter_at_most_one_millisecond (NewCircuitBreaker 20 2000000000) 0 3 [] 0 (by decide)

/-- Claim C10: when downstream never calls `WriteHeader`, the recorder
reports 200, the call counts as a success (score decays to
`max 0 (score - 2)`, never increments) and the breaker cannot open from it
(`openUntil` is unchanged). -/
theorem breaker_no_writeheader_counts_success (cb : CircuitBreaker) (now : Int) (seed : Nat)
    (recTime : Int) (h : ¬ now < cb.openUntil) :
    recordedCode [] = 200 ∧
    (cb.middlewareStep now seed [] recTime).status = 200 ∧
    (cb.middlewareStep now seed [] recTime).cb.failures = max 0 (cb.failures - 2) ∧
    (cb.middlewareStep now seed [] recTime).cb.openUntil = cb.openUntil := by
  unfold CircuitBreaker.middlewareStep
  rw [if_neg h]
  refine ⟨rfl, rfl, ?_, ?_⟩
  · show (cb.record (recordedCode []) recTime).failures = max 0 (cb.failures - 2)
    unfold CircuitBreaker.record
    rw [if_neg (by norm_num [recordedCode])]
  · show (cb.record (recordedCode []) recTime).openUntil = cb.openUntil
    unfold CircuitBreaker.record
    rw [if_neg (by norm_num [recordedCode])]

/-- Witness for C10 at a closed breaker with score 7. -/
theorem breaker_no_writeheader_counts_success_witness :
    recordedCode [] = 200 ∧
    (CircuitBreaker.middlewareStep ⟨7, 0, 20, 2⟩ 1 0 [] 1).status = 200 ∧
    (CircuitBreaker.middlewareStep ⟨7, 0, 20, 2⟩ 1 0 [] 1).cb.failures = max 0 (7 - 2) ∧
    (CircuitBreaker.middlewareStep ⟨7, 0, 20, 2⟩ 1 0 [] 1).cb.openUntil = 0 :=
  breaker_no_writeheader_counts_success ⟨7, 0, 20, 2⟩ 1 0 1 (by decide)

end HighperfApi
